import Mathlib

/-!
Verification development for the connection subsystem of a Rust client
library.  The source under study consists of `src/connection/python.rs`
(the blocking caller-facing operations) and `src/connection/state.rs`
(the adapters onto the generic state-transfer actor and the protocol
enum).  Code of the repository that is only declared or called from
those files (the routing enums and the generic state-transfer actor) is
modelled from the specification; each such definition carries a doc
comment beginning `Modelled from the spec:`.
-/

namespace SurrealClient

/-- Modelled from the spec: request payload of the Create operation
(`Url { url }` in `routing::interface`, not under src/). -/
structure Url where
  url : String
  deriving DecidableEq, Repr

/-- Modelled from the spec: response payload of the Create operation and
request payload of Close/Check (`ConnectionId { connection_id }` in
`routing::interface`, not under src/). -/
structure ConnectionId where
  connection_id : String
  deriving DecidableEq, Repr

/-- Modelled from the spec: the empty response payload of the Close
operation (`EmptyState` in `routing::interface`, not under src/). -/
structure EmptyState where
  deriving DecidableEq, Repr

/-- Modelled from the spec: the generic typed request/response envelope
(`routing::enums::Message<Req, Resp>`, not under src/).  `package` at the
sender captures the request; at the receiver the envelope holds either a
typed response or a propagated inline error. -/
inductive Message (Req Resp : Type) where
  | send : Req → Message Req Resp
  | recv : Resp → Message Req Resp
  | error : String → Message Req Resp
  deriving DecidableEq, Repr

/-- Modelled from the spec: `Message::package_send` captures the request
payload; the expected response type is fixed at the type level only. -/
def Message.package_send {Req Resp : Type} (req : Req) : Message Req Resp :=
  Message.send req

/-- Modelled from the spec: `Message::handle_recieve` (sic) unpacks a
received envelope, yielding the typed response or surfacing the
propagated error. -/
def Message.handle_recieve {Req Resp : Type} : Message Req Resp → Except String Resp
  | Message.send _ => Except.error "no response in message"
  | Message.recv r => Except.ok r
  | Message.error e => Except.error e

/-- Modelled from the spec: the Connection subsystem union
(`ConnectionRoutes`, not under src/), multiplexing the three operations
with their compile-time Req/Resp pairings. -/
inductive ConnectionRoutes where
  | Create : Message Url ConnectionId → ConnectionRoutes
  | Close : Message ConnectionId EmptyState → ConnectionRoutes
  | Check : Message ConnectionId Bool → ConnectionRoutes
  deriving DecidableEq, Repr

/-- Modelled from the spec: the top-level Routes union
(`routing::handle::Routes`, not under src/).  Only the Connection
subsystem is defined in the source; `OtherSubsystem` stands for any
sibling subsystem the design's extensibility allows, and is what the
source's catch-all match arms reject. -/
inductive Routes where
  | Connection : ConnectionRoutes → Routes
  | OtherSubsystem : Routes
  deriving DecidableEq, Repr

/-- Outcome of one blocking call as seen by the caller: a returned value,
a descriptive text error (a `PyErr` carrying the text), or a Rust panic
coming from an `.unwrap()`. -/
inductive Outcome (α : Type) where
  | ok : α → Outcome α
  | err : String → Outcome α
  | panic : Outcome α
  deriving DecidableEq, Repr

/-- One observable transport action performed by a blocking call:
opening a stream to an address, writing the serialized request, a single
read into a buffer of the given size, and dropping the stream. -/
inductive Event where
  | connect : String → Event
  | write : Routes → Event
  | read : Nat → Event
  | disconnect : Event
  deriving DecidableEq, Repr

/-- Environment oracle for one blocking call: the results of
`TcpStream::connect`, `write_all` and `stream.read`, together with the
listener's full response: its length in bytes and the `Routes` value its
complete byte sequence decodes to (`none` when the bytes are not valid
JSON for `Routes`). -/
structure Transport where
  connect : Except String Unit
  write : Except String Unit
  read : Except String Unit
  response_len : Nat
  response : Option Routes

/-- A transport whose connect, write and read all succeed. -/
def okTransport (len : Nat) (resp : Option Routes) : Transport :=
  { connect := Except.ok (), write := Except.ok (), read := Except.ok (),
    response_len := len, response := resp }

/-- The address string `format!("127.0.0.1:{}", port)` built by each
blocking function. -/
def addr (port : Int) : String :=
  "127.0.0.1:" ++ toString port

/-- Result of `serde_json::from_slice` over the bytes actually read:
`stream.read` fills at most the 1024-byte buffer, so a response longer
than 1024 bytes is truncated, and a strict prefix of a JSON document is
never itself a complete JSON document, so decoding the truncated bytes
fails. -/
def decode_response (t : Transport) : Option Routes :=
  if t.response_len ≤ 1024 then t.response else none

/-- The transport exchange shared verbatim by the three blocking
functions in `python.rs`: connect (errors mapped to text via `map_err`),
`write_all` (likewise), a single `stream.read` into a 1024-byte buffer
whose result is `.unwrap()`ed (panicking on an I/O error), and
`serde_json::from_slice` on the bytes read, also `.unwrap()`ed
(panicking on malformed bytes).  The stream is dropped on every exit
path after a successful connect, including panic unwinding.  The second
component is the trace of transport actions performed. -/
def transport_exchange (port : Int) (request : Routes) (t : Transport) :
    Outcome Routes × List Event :=
  match t.connect with
  | Except.error e => (Outcome.err e, [Event.connect (addr port)])
  | Except.ok _ =>
    match t.write with
    | Except.error e =>
      (Outcome.err e, [Event.connect (addr port), Event.write request, Event.disconnect])
    | Except.ok _ =>
      let events := [Event.connect (addr port), Event.write request,
        Event.read 1024, Event.disconnect]
      match t.read with
      | Except.error _ => (Outcome.panic, events)
      | Except.ok _ =>
        match decode_response t with
        | none => (Outcome.panic, events)
        | some routes => (Outcome.ok routes, events)

/-- The request `blocking_make_connection` builds (python.rs lines 27-28). -/
def make_connection_request (url : String) : Routes :=
  Routes.Connection (ConnectionRoutes.Create
    (Message.package_send ⟨url⟩ : Message Url ConnectionId))

/-- The request `blocking_close_connection` builds (python.rs lines 62-63). -/
def close_connection_request (connection_id : String) : Routes :=
  Routes.Connection (ConnectionRoutes.Close
    (Message.package_send ⟨connection_id⟩ : Message ConnectionId EmptyState))

/-- The request `blocking_check_connection` builds (python.rs lines 100-101). -/
def check_connection_request (connection_id : String) : Routes :=
  Routes.Connection (ConnectionRoutes.Check
    (Message.package_send ⟨connection_id⟩ : Message ConnectionId Bool))

/-- `blocking_make_connection` from python.rs: build the Create request,
run the transport exchange, then match the decoded response body; a
non-Connection subsystem or a non-Create operation variant yields the
text error `Invalid response from listener`; otherwise the envelope is
unpacked and the connection id string returned. -/
def blocking_make_connection (url : String) (port : Int) (t : Transport) :
    Outcome String × List Event :=
  let message := make_connection_request url
  let ex := transport_exchange port message t
  (match ex.1 with
   | Outcome.err e => Outcome.err e
   | Outcome.panic => Outcome.panic
   | Outcome.ok response_body =>
     match response_body with
     | Routes.Connection response =>
       match response with
       | ConnectionRoutes.Create msg =>
         match msg.handle_recieve with
         | Except.ok unique_id => Outcome.ok unique_id.connection_id
         | Except.error e => Outcome.err e
       | _ => Outcome.err "Invalid response from listener"
     | _ => Outcome.err "Invalid response from listener",
   ex.2)

/-- `blocking_close_connection` from python.rs: build the Close request,
run the transport exchange, match the response; a wrong subsystem or
operation variant yields the text error; a Close envelope is unpacked
(errors propagate) and unit is returned. -/
def blocking_close_connection (connection_id : String) (port : Int) (t : Transport) :
    Outcome Unit × List Event :=
  let message := close_connection_request connection_id
  let ex := transport_exchange port message t
  (match ex.1 with
   | Outcome.err e => Outcome.err e
   | Outcome.panic => Outcome.panic
   | Outcome.ok response_body =>
     match response_body with
     | Routes.Connection response =>
       match response with
       | ConnectionRoutes.Close msg =>
         match msg.handle_recieve with
         | Except.ok _ => Outcome.ok ()
         | Except.error e => Outcome.err e
       | _ => Outcome.err "Invalid response from listener"
     | _ => Outcome.err "Invalid response from listener",
   ex.2)

/-- `blocking_check_connection` from python.rs: build the Check request,
run the transport exchange, match the response; a wrong subsystem or
operation variant yields the text error; a Check envelope is unpacked
and the boolean connection state returned. -/
def blocking_check_connection (connection_id : String) (port : Int) (t : Transport) :
    Outcome Bool × List Event :=
  let message := check_connection_request connection_id
  let ex := transport_exchange port message t
  (match ex.1 with
   | Outcome.err e => Outcome.err e
   | Outcome.panic => Outcome.panic
   | Outcome.ok response_body =>
     match response_body with
     | Routes.Connection response =>
       match response with
       | ConnectionRoutes.Check msg =>
         match msg.handle_recieve with
         | Except.ok connection_state => Outcome.ok connection_state
         | Except.error e => Outcome.err e
       | _ => Outcome.err "Invalid response from listener"
     | _ => Outcome.err "Invalid response from listener",
   ex.2)

/-- The shape every trace of a blocking call has: a failed connect stops
after the connect attempt; after a successful connect the stream is
always dropped; the single read, when reached, uses the 1024-byte
buffer; no action repeats and the order is fixed. -/
def traceShape (port : Int) (req : Routes) (ev : List Event) : Prop :=
  ev = [Event.connect (addr port)] ∨
  ev = [Event.connect (addr port), Event.write req, Event.disconnect] ∨
  ev = [Event.connect (addr port), Event.write req, Event.read 1024, Event.disconnect]

end SurrealClient

namespace SurrealClient

/-- Modelled from the spec: the external database session handle
(`surrealdb::Surreal<Client>`, out of scope), an opaque owned value,
represented by an abstract numeric handle. -/
structure Surreal (Client : Type) where
  handle : Nat
  deriving DecidableEq, Repr

/-- Marker type for the websocket engine client. -/
structure WsClient where
  deriving DecidableEq, Repr

/-- Marker type for the HTTP engine client. -/
structure HttpClient where
  deriving DecidableEq, Repr

/-- `WrappedConnection` from state.rs: wrapper for the open database
connection stored in the connection state, either a live websocket or a
live HTTP connection. -/
inductive WrappedConnection where
  | WS : Surreal WsClient → WrappedConnection
  | HTTP : Surreal HttpClient → WrappedConnection
  deriving DecidableEq, Repr

/-- Modelled from the spec: a checkout ticket (`WrappedValue<T>` of the
state-transfer actor, not under src/), pairing a resource with the
identity needed to return it. -/
structure WrappedValue (T : Type) where
  key : String
  value : T
  deriving DecidableEq, Repr

/-- `GetConnectionMessage` from state.rs: the ticket type for connections. -/
abbrev GetConnectionMessage := WrappedValue WrappedConnection

/-- Registry errors from the spec's taxonomy relevant to the actor:
`NotFound` (id absent or already checked out) and `UnknownTicket`
(return of an untracked checkout). -/
inductive RegistryError where
  | NotFound : RegistryError
  | UnknownTicket : RegistryError
  deriving DecidableEq, Repr

/-- Text rendering of a registry error, used when tagging it for the
caller. -/
def registryErrorText : RegistryError → String
  | RegistryError.NotFound => "NotFound"
  | RegistryError.UnknownTicket => "UnknownTicket"

/-- First value bound to a key in an association list, if any. -/
def mapGet {T : Type} : List (String × T) → String → Option T
  | [], _ => none
  | (k2, v) :: rest, k => if k2 = k then some v else mapGet rest k

/-- Remove every binding of a key from an association list. -/
def mapRemove {T : Type} : List (String × T) → String → List (String × T)
  | [], _ => []
  | (k2, v) :: rest, k =>
    if k2 = k then mapRemove rest k else (k2, v) :: mapRemove rest k

/-- Whether an association list binds a key. -/
def hasKey {T : Type} : List (String × T) → String → Bool
  | [], _ => false
  | (k2, _) :: rest, k => if k2 = k then true else hasKey rest k

/-- Modelled from the spec: the state owned by the resource registry
actor (`StateTransferActor`, not under src/): the id-to-resource mapping
of available resources, plus the live checkouts. -/
structure RegistryState (T : Type) where
  available : List (String × T)
  checked_out : List (String × T)
  deriving DecidableEq, Repr

/-- Modelled from the spec: the actor's `Insert(id, resource)` command:
always succeeds and overwrites any prior entry for the id. -/
def registryInsert {T : Type} (st : RegistryState T) (id : String) (r : T) :
    RegistryState T :=
  { st with available := (id, r) :: mapRemove st.available id }

/-- Modelled from the spec: the actor's `Get(id)` command: if the id is
available, it is removed from the available set (the exclusivity
mechanism) and a checkout ticket is produced; otherwise `NotFound`. -/
def registryGet {T : Type} (st : RegistryState T) (id : String) :
    Except RegistryError (WrappedValue T) × RegistryState T :=
  match mapGet st.available id with
  | some r =>
    (Except.ok { key := id, value := r },
     { available := mapRemove st.available id,
       checked_out := (id, r) :: st.checked_out })
  | none => (Except.error RegistryError.NotFound, st)

/-- Modelled from the spec: the actor's `Return(ticket)` command:
re-inserts the resource under its original id if the ticket corresponds
to a live checkout, else `UnknownTicket`. -/
def registryReturn {T : Type} (st : RegistryState T) (ticket : WrappedValue T) :
    Except RegistryError Unit × RegistryState T :=
  if hasKey st.checked_out ticket.key then
    (Except.ok (),
     { available := (ticket.key, ticket.value) :: mapRemove st.available ticket.key,
       checked_out := mapRemove st.checked_out ticket.key })
  else (Except.error RegistryError.UnknownTicket, st)

/-- Modelled from the spec: the actor's `Remove(id)` command: deletes the
entry permanently, `NotFound` when absent. -/
def registryRemove {T : Type} (st : RegistryState T) (id : String) :
    Except RegistryError Unit × RegistryState T :=
  if hasKey st.available id then
    (Except.ok (), { st with available := mapRemove st.available id })
  else (Except.error RegistryError.NotFound, st)

/-- Modelled from the spec: the generic `get_value` of the state-transfer
actor module (not under src/): packages a `Get` command, awaits the
actor's reply through the mailbox (represented here by explicit state
passing), and returns the ticket or the registry's error tagged with the
caller-supplied context label. -/
def get_value {T : Type} (id : String) (tag : String) (st : RegistryState T) :
    Except String (WrappedValue T) × RegistryState T :=
  match registryGet st id with
  | (Except.ok ticket, st2) => (Except.ok ticket, st2)
  | (Except.error e, st2) =>
    (Except.error (tag ++ " error: " ++ registryErrorText e), st2)

/-- Modelled from the spec: the generic `return_value` of the
state-transfer actor module (not under src/): packages a `Return`
command and awaits acknowledgment, tagging errors with the context
label. -/
def return_value {T : Type} (ticket : WrappedValue T) (tag : String)
    (st : RegistryState T) : Except String Unit × RegistryState T :=
  match registryReturn st ticket with
  | (Except.ok _, st2) => (Except.ok (), st2)
  | (Except.error e, st2) =>
    (Except.error (tag ++ " error: " ++ registryErrorText e), st2)

/-- `ConnectionActorTag` from state.rs: a tag to aid in error messages
for the generic functions that access the state transfer actor. -/
structure ConnectionActorTag where

/-- The `Display` implementation of `ConnectionActorTag` (state.rs lines
29-33). -/
def ConnectionActorTag.display (_ : ConnectionActorTag) : String :=
  "CONNECTION_ACTOR"

/-- `get_connection` from state.rs: gets a connection from the
connection manager by calling the generic `get_value` at
`WrappedConnection` with the connection actor tag. -/
def get_connection (connection_id : String) (st : RegistryState WrappedConnection) :
    Except String GetConnectionMessage × RegistryState WrappedConnection :=
  get_value connection_id (ConnectionActorTag.display ⟨⟩) st

/-- `return_connection` from state.rs: returns a connection to the
connection manager by calling the generic `return_value` with the
connection actor tag. -/
def return_connection (rc : GetConnectionMessage)
    (st : RegistryState WrappedConnection) :
    Except String Unit × RegistryState WrappedConnection :=
  return_value rc (ConnectionActorTag.display ⟨⟩) st

/-- `ConnectProtocol` from state.rs: the connection protocol enum. -/
inductive ConnectProtocol where
  | WS : ConnectProtocol
  | HTTP : ConnectProtocol
  deriving DecidableEq, Repr

/-- Model of Rust's `str::to_uppercase` as used here: character-wise
uppercasing (the protocol strings involved are ASCII). -/
def to_uppercase (s : String) : String :=
  String.mk (s.data.map Char.toUpper)

/-- `ConnectProtocol::from_string` from state.rs: uppercase the input
and match it against the protocol names; anything else is an error
carrying the original input. -/
def ConnectProtocol.from_string (protocol_type : String) :
    Except String ConnectProtocol :=
  let upper := to_uppercase protocol_type
  if upper = "WS" then Except.ok ConnectProtocol.WS
  else if upper = "HTTP" then Except.ok ConnectProtocol.HTTP
  else Except.error ("Invalid protocol: " ++ protocol_type)

/-- A transport used as concrete input in witnesses: everything succeeds
but the response bytes do not decode. -/
def exampleTransport : Transport := okTransport 0 none

/-- Looking up a key in a list after removing that key finds nothing. -/
theorem mapGet_mapRemove_self {T : Type} (l : List (String × T)) (k : String) :
    mapGet (mapRemove l k) k = none := by
  induction l with
  | nil => rfl
  | cons p rest ih =>
    obtain ⟨k2, v⟩ := p
    by_cases h : k2 = k
    · simpa [mapRemove, h] using ih
    · simpa [mapRemove, mapGet, h] using ih

/-- Removing one key leaves lookups of every other key unchanged. -/
theorem mapGet_mapRemove_ne {T : Type} (l : List (String × T)) {k kq : String}
    (h : kq ≠ k) : mapGet (mapRemove l k) kq = mapGet l kq := by
  induction l with
  | nil => rfl
  | cons p rest ih =>
    obtain ⟨k2, v⟩ := p
    by_cases hk : k2 = k
    · subst hk
      have hq2 : ¬ k2 = kq := fun h2 => h h2.symm
      simpa [mapRemove, mapGet, hq2] using ih
    · by_cases hq : k2 = kq
      · simp [mapRemove, mapGet, hk, hq, h]
      · simpa [mapRemove, mapGet, hk, hq] using ih

/-- The trace of every transport exchange has the fixed shape: connect
only, or connect-write-disconnect, or connect-write-read-disconnect. -/
theorem transport_exchange_traceShape (port : Int) (req : Routes) (t : Transport) :
    traceShape port req (transport_exchange port req t).2 := by
  unfold traceShape transport_exchange
  cases hc : t.connect with
  | error e => simp
  | ok u =>
    cases hw : t.write with
    | error e => simp
    | ok u2 =>
      cases hr : t.read with
      | error e => simp
      | ok u3 =>
        cases hd : decode_response t with
        | none => simp
        | some r => simp

/-- Each blocking function's trace is exactly its transport exchange's
trace. -/
theorem blocking_traces (url connection_id : String) (port : Int) (t : Transport) :
    (blocking_make_connection url port t).2 =
      (transport_exchange port (make_connection_request url) t).2 ∧
    (blocking_close_connection connection_id port t).2 =
      (transport_exchange port (close_connection_request connection_id) t).2 ∧
    (blocking_check_connection connection_id port t).2 =
      (transport_exchange port (check_connection_request connection_id) t).2 :=
  ⟨rfl, rfl, rfl⟩

/-- A write event occurring in an exchange's trace carries exactly the
request that exchange was given. -/
theorem write_event_eq (port : Int) (req : Routes) (t : Transport) (r : Routes)
    (h : Event.write r ∈ (transport_exchange port req t).2) : r = req := by
  rcases transport_exchange_traceShape port req t with h1 | h1 | h1 <;>
    rw [h1] at h <;> simp at h <;> exact h

/-- C1: the registry grants at most one outstanding checkout per id:
from any registry state, after inserting resource R under id c1, a first
`get_connection` returns the ticket for R; a second `get_connection`
before the ticket is returned yields the NotFound error; returning the
ticket succeeds with unit, and a subsequent `get_connection` returns R's
ticket again. -/
theorem C1_exclusive_checkout (R : WrappedConnection)
    (st : RegistryState WrappedConnection) :
    (get_connection "c1" (registryInsert st "c1" R)).1 = Except.ok ⟨"c1", R⟩ ∧
    (get_connection "c1" (get_connection "c1" (registryInsert st "c1" R)).2).1 =
      Except.error ("CONNECTION_ACTOR" ++ " error: " ++
        registryErrorText RegistryError.NotFound) ∧
    (return_connection ⟨"c1", R⟩
      (get_connection "c1" (registryInsert st "c1" R)).2).1 = Except.ok () ∧
    (get_connection "c1" (return_connection ⟨"c1", R⟩
      (get_connection "c1" (registryInsert st "c1" R)).2).2).1 =
      Except.ok ⟨"c1", R⟩ := by
  refine ⟨?_, ?_, ?_, ?_⟩ <;>
    simp [get_connection, get_value, return_connection, return_value,
      registryInsert, registryGet, registryReturn, mapGet, mapRemove, hasKey,
      ConnectionActorTag.display, mapGet_mapRemove_self]

/-- C2 (code bug): the blocking operations do not surface every failure
as a text error: an I/O failure of the single read, or response bytes
that do not decode, hit an `.unwrap()` and the call panics instead of
returning a descriptive error value. -/
theorem C2_read_or_decode_failure_panics :
    (blocking_make_connection "db://host" 8080
      { connect := Except.ok (), write := Except.ok (),
        read := Except.error "connection reset by peer",
        response_len := 0, response := none }).1 = Outcome.panic ∧
    (blocking_make_connection "db://host" 8080 (okTransport 9 none)).1 =
      Outcome.panic ∧
    (blocking_close_connection "c1" 8080 (okTransport 9 none)).1 =
      Outcome.panic ∧
    (blocking_check_connection "c1" 8080 (okTransport 9 none)).1 =
      Outcome.panic :=
  ⟨rfl, rfl, rfl, rfl⟩

/-- C3: the three caller-facing operations have the spec's signatures:
when the exchange succeeds and the listener's response is the matching
operation variant, `blocking_make_connection` returns the connection-id
string carried in the response, `blocking_close_connection` returns
unit, and `blocking_check_connection` returns the boolean carried in the
response. -/
theorem C3_operation_signatures (url connection_id : String) (port : Int)
    (cid : ConnectionId) (b : Bool) (len : Nat) (hlen : len ≤ 1024) :
    (blocking_make_connection url port (okTransport len (some
      (Routes.Connection (ConnectionRoutes.Create (Message.recv cid)))))).1 =
      Outcome.ok cid.connection_id ∧
    (blocking_close_connection connection_id port (okTransport len (some
      (Routes.Connection (ConnectionRoutes.Close (Message.recv ⟨⟩)))))).1 =
      Outcome.ok () ∧
    (blocking_check_connection connection_id port (okTransport len (some
      (Routes.Connection (ConnectionRoutes.Check (Message.recv b)))))).1 =
      Outcome.ok b := by
  refine ⟨?_, ?_, ?_⟩ <;>
    simp [blocking_make_connection, blocking_close_connection,
      blocking_check_connection, transport_exchange, decode_response,
      okTransport, hlen, Message.handle_recieve]

/-- Witness for C3 at concrete inputs. -/
theorem C3_operation_signatures_witness :
    (blocking_make_connection "db://host" 8080 (okTransport 2 (some
      (Routes.Connection (ConnectionRoutes.Create
        (Message.recv ⟨"c1"⟩)))))).1 = Outcome.ok "c1" ∧
    (blocking_close_connection "c1" 8080 (okTransport 2 (some
      (Routes.Connection (ConnectionRoutes.Close (Message.recv ⟨⟩)))))).1 =
      Outcome.ok () ∧
    (blocking_check_connection "c1" 8080 (okTransport 2 (some
      (Routes.Connection (ConnectionRoutes.Check (Message.recv true)))))).1 =
      Outcome.ok true :=
  C3_operation_signatures "db://host" "c1" 8080 ⟨"c1"⟩ true 2 (by decide)

/-- C4: a well-formed response whose subsystem tag or operation variant
differs from the one the caller sent is rejected with the route-mismatch
text error, never coerced and never a panic — all nine mismatch
combinations: each of the three blocking operations receiving each of
the two other operation variants, or a sibling subsystem. -/
theorem C4_route_mismatch_rejected (url connection_id : String) (port : Int)
    (m0 : Message Url ConnectionId) (m1 : Message ConnectionId EmptyState)
    (m2 : Message ConnectionId Bool) :
    (blocking_make_connection url port (okTransport 64 (some
      (Routes.Connection (ConnectionRoutes.Close m1))))).1 =
      Outcome.err "Invalid response from listener" ∧
    (blocking_make_connection url port (okTransport 64 (some
      (Routes.Connection (ConnectionRoutes.Check m2))))).1 =
      Outcome.err "Invalid response from listener" ∧
    (blocking_make_connection url port (okTransport 64 (some
      Routes.OtherSubsystem))).1 =
      Outcome.err "Invalid response from listener" ∧
    (blocking_close_connection connection_id port (okTransport 64 (some
      (Routes.Connection (ConnectionRoutes.Create m0))))).1 =
      Outcome.err "Invalid response from listener" ∧
    (blocking_close_connection connection_id port (okTransport 64 (some
      (Routes.Connection (ConnectionRoutes.Check m2))))).1 =
      Outcome.err "Invalid response from listener" ∧
    (blocking_close_connection connection_id port (okTransport 64 (some
      Routes.OtherSubsystem))).1 =
      Outcome.err "Invalid response from listener" ∧
    (blocking_check_connection connection_id port (okTransport 64 (some
      (Routes.Connection (ConnectionRoutes.Create m0))))).1 =
      Outcome.err "Invalid response from listener" ∧
    (blocking_check_connection connection_id port (okTransport 64 (some
      (Routes.Connection (ConnectionRoutes.Close m1))))).1 =
      Outcome.err "Invalid response from listener" ∧
    (blocking_check_connection connection_id port (okTransport 64 (some
      Routes.OtherSubsystem))).1 =
      Outcome.err "Invalid response from listener" :=
  ⟨rfl, rfl, rfl, rfl, rfl, rfl, rfl, rfl, rfl⟩

/-- C5 (code bug): a response payload exceeding the 1024-byte read
buffer is never silently accepted — the truncated bytes fail to decode —
but the failure is a panic from the `.unwrap()` on the decoder, not a
serialization error value. -/
theorem C5_oversized_response_panics :
    (blocking_make_connection "db://host" 8080 (okTransport 2000 (some
      (Routes.Connection (ConnectionRoutes.Create
        (Message.recv ⟨"c1"⟩)))))).1 = Outcome.panic ∧
    (blocking_close_connection "c1" 8080 (okTransport 2000 (some
      (Routes.Connection (ConnectionRoutes.Close (Message.recv ⟨⟩)))))).1 =
      Outcome.panic ∧
    (blocking_check_connection "c1" 8080 (okTransport 2000 (some
      (Routes.Connection (ConnectionRoutes.Check (Message.recv true)))))).1 =
      Outcome.panic := by
  refine ⟨?_, ?_, ?_⟩ <;>
    simp [blocking_make_connection, blocking_close_connection,
      blocking_check_connection, transport_exchange, decode_response,
      okTransport]

/-- C6: every caller-facing operation performs exactly one transport
exchange in the fixed order — connect to the configured local port,
write the serialized request, a single read into the fixed 1024-byte
buffer, disconnect — with no second read and a fresh connection per
call: each call's trace has the fixed shape `traceShape`. -/
theorem C6_single_transport_exchange (url connection_id : String) (port : Int)
    (t : Transport) :
    traceShape port (make_connection_request url)
      (blocking_make_connection url port t).2 ∧
    traceShape port (close_connection_request connection_id)
      (blocking_close_connection connection_id port t).2 ∧
    traceShape port (check_connection_request connection_id)
      (blocking_check_connection connection_id port t).2 :=
  ⟨transport_exchange_traceShape port (make_connection_request url) t,
   transport_exchange_traceShape port (close_connection_request connection_id) t,
   transport_exchange_traceShape port (check_connection_request connection_id) t⟩

/-- C7: every request a blocking function writes on the wire is the
envelope with the spec's Req/Resp pairing at the matching route
position: Create pairs Url with ConnectionId, Close pairs ConnectionId
with the empty response, Check pairs ConnectionId with bool. -/
theorem C7_envelope_pairing (url connection_id : String) (port : Int)
    (t : Transport) (r : Routes) :
    (Event.write r ∈ (blocking_make_connection url port t).2 →
      r = Routes.Connection (ConnectionRoutes.Create
        (Message.package_send ⟨url⟩ : Message Url ConnectionId))) ∧
    (Event.write r ∈ (blocking_close_connection connection_id port t).2 →
      r = Routes.Connection (ConnectionRoutes.Close
        (Message.package_send ⟨connection_id⟩ : Message ConnectionId EmptyState))) ∧
    (Event.write r ∈ (blocking_check_connection connection_id port t).2 →
      r = Routes.Connection (ConnectionRoutes.Check
        (Message.package_send ⟨connection_id⟩ : Message ConnectionId Bool))) :=
  ⟨fun h => write_event_eq port (make_connection_request url) t r h,
   fun h => write_event_eq port (close_connection_request connection_id) t r h,
   fun h => write_event_eq port (check_connection_request connection_id) t r h⟩

/-- Witness for C7 at a concrete transport where the write occurs. -/
theorem C7_envelope_pairing_witness :
    Event.write (make_connection_request "db://host") ∈
      (blocking_make_connection "db://host" 8080 exampleTransport).2 ∧
    make_connection_request "db://host" =
      Routes.Connection (ConnectionRoutes.Create
        (Message.package_send ⟨"db://host"⟩ : Message Url ConnectionId)) := by
  refine ⟨by decide, ?_⟩
  exact (C7_envelope_pairing "db://host" "c1" 8080 exampleTransport
    (make_connection_request "db://host")).1 (by decide)

/-- C8: `get_connection` and `return_connection` are pure pass-through
adapters: they return exactly the generic `get_value` and `return_value`
at `WrappedConnection` with the connection actor tag, whose display is
`CONNECTION_ACTOR`, and that tag is attached to registry errors. -/
theorem C8_pass_through_adapters (connection_id : String)
    (msg : GetConnectionMessage) (st : RegistryState WrappedConnection) :
    get_connection connection_id st =
      get_value connection_id (ConnectionActorTag.display ⟨⟩) st ∧
    return_connection msg st =
      return_value msg (ConnectionActorTag.display ⟨⟩) st ∧
    ConnectionActorTag.display ⟨⟩ = "CONNECTION_ACTOR" ∧
    (∀ e, (registryGet st connection_id).1 = Except.error e →
      (get_connection connection_id st).1 =
        Except.error (ConnectionActorTag.display ⟨⟩ ++ " error: " ++
          registryErrorText e)) := by
  refine ⟨rfl, rfl, rfl, ?_⟩
  intro e he
  unfold get_connection get_value
  rcases hg : registryGet st connection_id with ⟨res, st2⟩
  rw [hg] at he
  simp only at he
  subst he
  simp

/-- Witness for C8 at a concrete state. -/
theorem C8_pass_through_adapters_witness :
    (get_connection "c1" (⟨[], []⟩ : RegistryState WrappedConnection)).1 =
      Except.error (ConnectionActorTag.display ⟨⟩ ++ " error: " ++
        registryErrorText RegistryError.NotFound) ∧
    get_connection "c1" (⟨[], []⟩ : RegistryState WrappedConnection) =
      get_value "c1" (ConnectionActorTag.display ⟨⟩)
        (⟨[], []⟩ : RegistryState WrappedConnection) :=
  ⟨(C8_pass_through_adapters "c1" ⟨"c1", WrappedConnection.WS ⟨0⟩⟩
      ⟨[], []⟩).2.2.2 RegistryError.NotFound rfl,
   (C8_pass_through_adapters "c1" ⟨"c1", WrappedConnection.WS ⟨0⟩⟩ ⟨[], []⟩).1⟩

/-- C9: the registry neither duplicates nor silently drops a resource:
a successful Get moves the resource from the available map into the
checkout set — it is no longer available under its id, every other entry
is untouched, and the ticket carries exactly the stored value — and a
successful Return moves it back under its original id, removing the live
checkout and touching no other entry. -/
theorem C9_no_duplicate_no_drop (st : RegistryState WrappedConnection)
    (id : String) (ticket : WrappedValue WrappedConnection) :
    (∀ st2, registryGet st id = (Except.ok ticket, st2) →
      ticket.key = id ∧
      mapGet st.available id = some ticket.value ∧
      mapGet st2.available id = none ∧
      st2.checked_out = (id, ticket.value) :: st.checked_out ∧
      ∀ k, k ≠ id → mapGet st2.available k = mapGet st.available k) ∧
    (∀ st2, registryReturn st ticket = (Except.ok (), st2) →
      mapGet st2.available ticket.key = some ticket.value ∧
      st2.checked_out = mapRemove st.checked_out ticket.key ∧
      ∀ k, k ≠ ticket.key → mapGet st2.available k = mapGet st.available k) := by
  constructor
  · intro st2 h
    unfold registryGet at h
    cases hm : mapGet st.available id with
    | none =>
      rw [hm] at h
      simp at h
    | some r =>
      rw [hm] at h
      simp only [Prod.mk.injEq, Except.ok.injEq] at h
      obtain ⟨hticket, hst⟩ := h
      subst hst
      subst hticket
      refine ⟨rfl, rfl, mapGet_mapRemove_self st.available id, rfl, ?_⟩
      intro k hk
      exact mapGet_mapRemove_ne st.available hk
  · intro st2 h
    unfold registryReturn at h
    by_cases hc : hasKey st.checked_out ticket.key
    · rw [if_pos hc] at h
      simp only [Prod.mk.injEq] at h
      obtain ⟨-, hst⟩ := h
      subst hst
      refine ⟨by simp [mapGet], rfl, ?_⟩
      intro k hk
      show mapGet ((ticket.key, ticket.value) ::
        mapRemove st.available ticket.key) k = mapGet st.available k
      rw [mapGet, if_neg (fun h2 => hk h2.symm)]
      exact mapGet_mapRemove_ne st.available hk
    · rw [if_neg hc] at h
      simp at h

/-- Witness for C9 at a concrete one-entry state. -/
theorem C9_no_duplicate_no_drop_witness :
    mapGet ((⟨[("c1", WrappedConnection.HTTP ⟨7⟩)], []⟩ :
      RegistryState WrappedConnection)).available "c1" =
      some (WrappedConnection.HTTP ⟨7⟩) ∧
    mapGet ((⟨[], [("c1", WrappedConnection.HTTP ⟨7⟩)]⟩ :
      RegistryState WrappedConnection)).available "c1" = none := by
  have h := (C9_no_duplicate_no_drop
    ⟨[("c1", WrappedConnection.HTTP ⟨7⟩)], []⟩ "c1"
    ⟨"c1", WrappedConnection.HTTP ⟨7⟩⟩).1
    ⟨[], [("c1", WrappedConnection.HTTP ⟨7⟩)]⟩ rfl
  exact ⟨h.2.1, h.2.2.1⟩

/-- C10: `ConnectProtocol.from_string` is total over strings and
case-insensitive: it returns the WS variant exactly when the uppercased
input is `WS`, the HTTP variant exactly when the uppercased input is
`HTTP`, and for every other input an error whose message is the fixed
text followed by the original input unchanged. -/
theorem C10_from_string_case_insensitive (s : String) :
    (ConnectProtocol.from_string s = Except.ok ConnectProtocol.WS ↔
      to_uppercase s = "WS") ∧
    (ConnectProtocol.from_string s = Except.ok ConnectProtocol.HTTP ↔
      to_uppercase s = "HTTP") ∧
    (to_uppercase s ≠ "WS" → to_uppercase s ≠ "HTTP" →
      ConnectProtocol.from_string s =
        Except.error ("Invalid protocol: " ++ s)) := by
  unfold ConnectProtocol.from_string
  by_cases h1 : to_uppercase s = "WS"
  · simp [h1]
  · by_cases h2 : to_uppercase s = "HTTP"
    · simp [h1, h2]
    · simp [h1, h2]

/-- Witness for C10 at concrete inputs of each class. -/
theorem C10_from_string_case_insensitive_witness :
    ConnectProtocol.from_string "ws" = Except.ok ConnectProtocol.WS ∧
    ConnectProtocol.from_string "Http" = Except.ok ConnectProtocol.HTTP ∧
    ConnectProtocol.from_string "tcp" =
      Except.error ("Invalid protocol: " ++ "tcp") :=
  ⟨(C10_from_string_case_insensitive "ws").1.mpr (by decide),
   (C10_from_string_case_insensitive "Http").2.1.mpr (by decide),
   (C10_from_string_case_insensitive "tcp").2.2 (by decide) (by decide)⟩

end SurrealClient
